import Mathlib

/-!
Shallow embedding of the three in-process middlewares of the x-poll
application: the rate limiter (`src/lib/middleware/rate-limit.ts`), the
CSRF guard and the session guard (unnamed source parts).

Times are modelled as `Nat` milliseconds (the source uses `Date.now()`
values; every subtraction in the source is performed on values where the
JS result is non-negative on the branch where it is used, and on the
branches where a JS subtraction could be negative the comparison outcome
agrees with truncated `Nat` subtraction, as noted at each definition).
The process-wide mutable `Map`s become explicit stores of type
`String → Option _` threaded through each operation.
-/

namespace XPoll

/-! ### Rate limiter (`src/lib/middleware/rate-limit.ts`) -/

/-- The four keys of `RATE_LIMITS`. -/
inductive RateLimitType where
  | default
  | createPoll
  | vote
  | auth
deriving DecidableEq

/-- One entry of the `RATE_LIMITS` configuration object. -/
structure RateLimitConfig where
  maxRequests : Nat
  windowMs : Nat
deriving DecidableEq

/-- The `RATE_LIMITS` configuration object. -/
def RATE_LIMITS : RateLimitType → RateLimitConfig
  | .default    => ⟨100, 15 * 60 * 1000⟩
  | .createPoll => ⟨10, 60 * 60 * 1000⟩
  | .vote       => ⟨50, 15 * 60 * 1000⟩
  | .auth       => ⟨20, 15 * 60 * 1000⟩

/-- The string used for `type` in the template literal of the map key. -/
def typeName : RateLimitType → String
  | .default    => "default"
  | .createPoll => "createPoll"
  | .vote       => "vote"
  | .auth       => "auth"

/-- One value of the `requestCounts` map. -/
structure Bucket where
  count : Nat
  resetTime : Nat
deriving DecidableEq

/-- The `requestCounts` map, as a lookup function. -/
abbrev RateStore := String → Option Bucket

/-- The initial (empty) `requestCounts` map. -/
def emptyRateStore : RateStore := fun _ => none

/-- `requestCounts.set(key, value)`. -/
def rateSet (s : RateStore) (key : String) (value : Bucket) : RateStore :=
  fun k => if k = key then some value else s k

/-- The map key computed by the template literal in `checkRateLimit`. -/
def rateKey (ty : RateLimitType) (clientId : String) : String :=
  typeName ty ++ ":" ++ clientId

/-- The result object returned by `checkRateLimit`; `retryAfter = none`
models the absent optional field. -/
structure RateLimitResult where
  success : Bool
  limit : Nat
  remaining : Nat
  resetTime : Nat
  retryAfter : Option Nat
deriving DecidableEq

/-- `cleanupExpiredEntries`: delete every entry whose `resetTime` is in
the strict past. -/
def cleanupExpiredEntries (now : Nat) (s : RateStore) : RateStore :=
  fun k =>
    match s k with
    | some value => if now > value.resetTime then none else some value
    | none => none

/-- `checkRateLimit`. The source's `Math.random() < 0.01` gate on the
opportunistic cleanup is modelled by the explicit boolean `clean`.
`Math.ceil((existing.resetTime - now) / 1000)` is computed on the branch
where `now ≤ existing.resetTime`, so it equals
`(existing.resetTime - now + 999) / 1000` in `Nat` arithmetic. -/
def checkRateLimit (ty : RateLimitType) (clientId : String) (clean : Bool)
    (now : Nat) (s : RateStore) : RateLimitResult × RateStore :=
  let key := rateKey ty clientId
  let config := RATE_LIMITS ty
  let s1 := if clean then cleanupExpiredEntries now s else s
  match s1 key with
  | none =>
      let resetTime := now + config.windowMs
      (⟨true, config.maxRequests, config.maxRequests - 1, resetTime, none⟩,
        rateSet s1 key ⟨1, resetTime⟩)
  | some existing =>
      if now > existing.resetTime then
        let resetTime := now + config.windowMs
        (⟨true, config.maxRequests, config.maxRequests - 1, resetTime, none⟩,
          rateSet s1 key ⟨1, resetTime⟩)
      else if existing.count ≥ config.maxRequests then
        (⟨false, config.maxRequests, 0, existing.resetTime,
            some ((existing.resetTime - now + 999) / 1000)⟩, s1)
      else
        (⟨true, config.maxRequests, config.maxRequests - (existing.count + 1),
            existing.resetTime, none⟩,
          rateSet s1 key ⟨existing.count + 1, existing.resetTime⟩)

/-- `createRateLimitHeaders`. The JS truthiness test `if (result.retryAfter)`
skips the `Retry-After` header both when the field is absent and when it is
`0`. `Math.ceil(resetTime / 1000)` on a non-negative integer is
`(resetTime + 999) / 1000`. -/
def createRateLimitHeaders (result : RateLimitResult) : List (String × String) :=
  let base := [("X-RateLimit-Limit", toString result.limit),
               ("X-RateLimit-Remaining", toString result.remaining),
               ("X-RateLimit-Reset", toString ((result.resetTime + 999) / 1000))]
  match result.retryAfter with
  | some n => if n = 0 then base else base ++ [("Retry-After", toString n)]
  | none => base

/-- A minimal model of the `Response` objects the middleware builds. -/
structure HttpResponse where
  status : Nat
  body : String
  headers : List (String × String)
deriving DecidableEq

/-- `response.headers.set(key, value)`: replace any existing value for the key. -/
def setHeader (headers : List (String × String)) (key value : String) :
    List (String × String) :=
  headers.filter (fun p => p.1 ≠ key) ++ [(key, value)]

/-- The `429` response built by `withRateLimit` on rejection. -/
def tooManyResponse (result : RateLimitResult) : HttpResponse :=
  { status := 429,
    body := "Too many requests",
    headers := ("Content-Type", "application/json") :: createRateLimitHeaders result }

/-- The header-decorating step of `withRateLimit` on the success path. -/
def addRateLimitHeaders (response : HttpResponse) (result : RateLimitResult) :
    HttpResponse :=
  { response with
    headers := (createRateLimitHeaders result).foldl
      (fun hs kv => setHeader hs kv.1 kv.2) response.headers }

/-- `withRateLimit`. Exceptions are modelled by `Except String`: the
`check` argument stands for the outcome of the `checkRateLimit` call (an
`Except.error` models that call throwing at runtime), and the handler may
itself be fallible. The source's `try { ... } catch { return handler(request); }`
becomes the outer match: on any error the original handler is invoked with
the original request. -/
def withRateLimit {Req : Type} (check : Except String RateLimitResult)
    (handler : Req → Except String HttpResponse) (request : Req) :
    Except String HttpResponse :=
  match (do
      let rateLimitResult ← check
      if rateLimitResult.success then do
        let response ← handler request
        pure (addRateLimitHeaders response rateLimitResult)
      else
        pure (tooManyResponse rateLimitResult) : Except String HttpResponse) with
  | .ok response => .ok response
  | .error _ => handler request

/-! ### CSRF guard (`part_003`, `csrf.ts`) -/

/-- `CSRF_CONFIG.TOKEN_EXPIRY` (24 hours in ms). -/
def TOKEN_EXPIRY : Nat := 24 * 60 * 60 * 1000

/-- One value of the `csrfTokens` map. -/
structure CSRFToken where
  token : String
  userId : String
  createdAt : Nat
  expiresAt : Nat
deriving DecidableEq

/-- The `csrfTokens` map, as a lookup function keyed by the token hash. -/
abbrev CsrfStore := String → Option CSRFToken

/-- The initial (empty) `csrfTokens` map. -/
def emptyCsrfStore : CsrfStore := fun _ => none

/-- `storeCSRFToken`. `hash` stands for the SHA-256 `hashToken` of the
source, modelled as an abstract function on strings. -/
def storeCSRFToken (hash : String → String) (userId token : String)
    (now : Nat) (s : CsrfStore) : CsrfStore :=
  let hashedToken := hash token
  fun k =>
    if k = hashedToken then
      some ⟨hashedToken, userId, now, now + TOKEN_EXPIRY⟩
    else s k

/-- `validateCSRFToken`, returning the boolean outcome together with the
updated `csrfTokens` map (an expired record is deleted as a side effect).
The JS guard `if (!token || !userId)` treats the empty string as falsy. -/
def validateCSRFToken (hash : String → String) (userId token : String)
    (now : Nat) (s : CsrfStore) : Bool × CsrfStore :=
  if token = "" ∨ userId = "" then (false, s)
  else
    let hashedToken := hash token
    match s hashedToken with
    | none => (false, s)
    | some storedToken =>
        if storedToken.userId ≠ userId then (false, s)
        else if now > storedToken.expiresAt then
          (false, fun k => if k = hashedToken then none else s k)
        else (true, s)

/-- `cleanupExpiredCSRFTokens`. -/
def cleanupExpiredCSRFTokens (now : Nat) (s : CsrfStore) : CsrfStore :=
  fun k =>
    match s k with
    | some tokenData => if now > tokenData.expiresAt then none else some tokenData
    | none => none

/-- The request data `validateCSRFTokenFromRequest` and
`withCSRFProtection` read: the HTTP method, the `X-CSRF-Token` header, the
`csrf-token` cookie, and the `x-csrf-validated` marker header the wrapper
adds before invoking the handler. -/
structure CsrfRequest where
  method : String
  headerToken : Option String
  cookieToken : Option String
  csrfValidated : Bool
deriving DecidableEq

/-- JS truthiness of a nullable string: `null`/`undefined` and `""` are falsy. -/
def jsTruthy : Option String → Bool
  | none => false
  | some s => s ≠ ""

/-- The result object of `validateCSRFTokenFromRequest`. -/
structure CSRFValidation where
  isValid : Bool
  error : Option String
deriving DecidableEq

/-- `validateCSRFTokenFromRequest`. `session` is the outcome of the
external `supabase.auth.getSession()` lookup (`some uid` when a user is
authenticated). `tokenFromHeader || tokenFromCookie` is JS short-circuit
on truthiness, and `if (!token)` then catches the remaining falsy cases. -/
def validateCSRFTokenFromRequest (hash : String → String)
    (session : Option String) (request : CsrfRequest) (now : Nat)
    (s : CsrfStore) : CSRFValidation × CsrfStore :=
  match session with
  | none => (⟨false, some "No authenticated user"⟩, s)
  | some uid =>
      let token := if jsTruthy request.headerToken then request.headerToken
                   else request.cookieToken
      if jsTruthy token = false then
        (⟨false, some "CSRF token not provided"⟩, s)
      else
        let out := validateCSRFToken hash uid (token.getD "") now s
        if out.1 then (⟨true, none⟩, out.2)
        else (⟨false, some "Invalid or expired CSRF token"⟩, out.2)

/-- A minimal model of the JSON responses `withCSRFProtection` builds or
forwards: the status, the `error`/`message`/`code` body fields, and the
`X-CSRF-Protected` response header. -/
structure JsonResponse where
  status : Nat
  error : Option String
  message : Option String
  code : Option String
  csrfProtectedHeader : Bool
deriving DecidableEq

/-- The default `methods` option of `withCSRFProtection`. -/
def defaultMethods : List String := ["POST", "PUT", "DELETE", "PATCH"]

/-- `withCSRFProtection`, for a handler already bound to its extra
arguments. Returns the response together with the updated `csrfTokens`
map. -/
def withCSRFProtection (hash : String → String)
    (handler : CsrfRequest → JsonResponse) (methods : List String)
    (skipForGET : Bool) (session : Option String) (request : CsrfRequest)
    (now : Nat) (s : CsrfStore) : JsonResponse × CsrfStore :=
  if skipForGET ∧ request.method = "GET" then (handler request, s)
  else if request.method ∉ methods then (handler request, s)
  else
    let validation := validateCSRFTokenFromRequest hash session request now s
    if validation.1.isValid = false then
      (⟨403, some "CSRF validation failed", validation.1.error,
          some "CSRF_INVALID", false⟩, validation.2)
    else
      let response := handler { request with csrfValidated := true }
      ({ response with csrfProtectedHeader := true }, validation.2)

/-! ### Session guard (`part_001`, `session-manager.ts`) -/

/-- `SESSION_CONFIG.INACTIVITY_TIMEOUT` (2 hours in ms). -/
def INACTIVITY_TIMEOUT : Nat := 2 * 60 * 60 * 1000

/-- `SESSION_CONFIG.WARNING_DURATION` (5 minutes in ms). -/
def WARNING_DURATION : Nat := 5 * 60 * 1000

/-- `SESSION_CONFIG.MAX_SESSION_DURATION` (8 hours in ms). -/
def MAX_SESSION_DURATION : Nat := 8 * 60 * 60 * 1000

/-- One value of the `sessionActivities` map. -/
structure SessionActivity where
  userId : String
  lastActivity : Nat
  sessionStart : Nat
  warningShown : Bool
deriving DecidableEq

/-- The `sessionActivities` map, as a lookup function keyed by user id. -/
abbrev SessionStore := String → Option SessionActivity

/-- The initial (empty) `sessionActivities` map. -/
def emptySessionStore : SessionStore := fun _ => none

/-- `trackUserActivity`. The source computes
`sessionStart: existing?.sessionStart || now`, so a missing record — and
also a (degenerate) stored `sessionStart` of `0`, which is falsy in JS —
yields `now`; `warningShown` is unconditionally reset to `false`. -/
def trackUserActivity (userId : String) (now : Nat) (s : SessionStore) :
    SessionStore :=
  let sessionStart :=
    match s userId with
    | some existing => if existing.sessionStart = 0 then now else existing.sessionStart
    | none => now
  fun k => if k = userId then some ⟨userId, now, sessionStart, false⟩ else s k

/-- The `reason` field of `shouldTerminateSession`. -/
inductive TerminateReason where
  | inactivity
  | max_duration
  | not_found
deriving DecidableEq

/-- The result object of `shouldTerminateSession`. -/
structure TerminateResult where
  shouldTerminate : Bool
  reason : Option TerminateReason
deriving DecidableEq

/-- `shouldTerminateSession` (read-only on the store). In JS a negative
`now - lastActivity` or `now - sessionStart` fails the strict `>`
comparisons exactly as the truncated `Nat` subtraction does. -/
def shouldTerminateSession (userId : String) (now : Nat) (s : SessionStore) :
    TerminateResult :=
  match s userId with
  | none => ⟨true, some .not_found⟩
  | some activity =>
      if now - activity.lastActivity > INACTIVITY_TIMEOUT then
        ⟨true, some .inactivity⟩
      else if now - activity.sessionStart > MAX_SESSION_DURATION then
        ⟨true, some .max_duration⟩
      else ⟨false, none⟩

/-- `shouldShowSessionWarning`, returning the boolean outcome together
with the updated store (the `warningShown` flag is set when the warning
fires). In JS, `timeUntilTimeout = INACTIVITY_TIMEOUT - timeSinceActivity`
can be negative, and then `timeUntilTimeout <= WARNING_DURATION` holds just
as it does for the truncated `Nat` value `0`. -/
def shouldShowSessionWarning (userId : String) (now : Nat) (s : SessionStore) :
    Bool × SessionStore :=
  match s userId with
  | none => (false, s)
  | some activity =>
      if activity.warningShown then (false, s)
      else
        let timeSinceActivity := now - activity.lastActivity
        let timeUntilTimeout := INACTIVITY_TIMEOUT - timeSinceActivity
        if timeUntilTimeout ≤ WARNING_DURATION then
          (true, fun k =>
            if k = userId then some { activity with warningShown := true }
            else s k)
        else (false, s)

/-- `cleanupExpiredSessions`. -/
def cleanupExpiredSessions (now : Nat) (s : SessionStore) : SessionStore :=
  fun k =>
    match s k with
    | some activity =>
        if now - activity.lastActivity > INACTIVITY_TIMEOUT then none
        else some activity
    | none => none

/-- `sessionActivities.delete(userId)`, as performed by
`validateAndRefreshSession` when a session is terminated. -/
def deleteSession (userId : String) (s : SessionStore) : SessionStore :=
  fun k => if k = userId then none else s k

/-! ### Derived notions used to state the claims -/

/-- First character of the `typeName` of a limit class (used to separate
the four key prefixes, whose first characters are pairwise distinct). -/
def typeFirstChar : RateLimitType → Char
  | .default    => 'd'
  | .createPoll => 'c'
  | .vote       => 'v'
  | .auth       => 'a'

/-- The per-class count bound: every bucket reachable in the store under
a class key holds a count of at most that class's `maxRequests`. -/
def RateInvariant (s : RateStore) : Prop :=
  ∀ (ty : RateLimitType) (cid : String) (b : Bucket),
    s (rateKey ty cid) = some b → b.count ≤ (RATE_LIMITS ty).maxRequests

/-- The arguments of one `checkRateLimit` call (with the random cleanup
gate made explicit). -/
structure RLCall where
  ty : RateLimitType
  clientId : String
  clean : Bool
  now : Nat

/-- Run a sequence of `checkRateLimit` calls, threading the store. -/
def runRateCalls : List RLCall → RateStore → RateStore
  | [], s => s
  | c :: rest, s =>
      runRateCalls rest (checkRateLimit c.ty c.clientId c.clean c.now s).2

/-- Run a sequence of `checkRateLimit` calls for one fixed key (no
cleanup), collecting each call's result. -/
def runWindowCalls (ty : RateLimitType) (cid : String) :
    List Nat → RateStore → List RateLimitResult × RateStore
  | [], s => ([], s)
  | t :: ts, s =>
      let out := checkRateLimit ty cid false t s
      let rest := runWindowCalls ty cid ts out.2
      (out.1 :: rest.1, rest.2)

/-! ### Theorems -/

/-- The first character of a rate-limit map key determines its class. -/
theorem rateKey_firstChar (ty : RateLimitType) (cid : String) :
    (rateKey ty cid).data.head? = some (typeFirstChar ty) := by
  cases ty <;> rfl

/-- The four class prefixes are distinguishable, so equal map keys come
from equal classes. -/
theorem rateKey_ty_inj {ty ty' : RateLimitType} {cid cid' : String}
    (h : rateKey ty cid = rateKey ty' cid') : ty = ty' := by
  have h1 := rateKey_firstChar ty cid
  rw [h, rateKey_firstChar ty' cid'] at h1
  have hc := Option.some.inj h1
  cases ty <;> cases ty' <;> first | rfl | exact absurd hc (by decide)

/-- Every class allows at least one request per window. -/
theorem one_le_maxRequests (ty : RateLimitType) :
    1 ≤ (RATE_LIMITS ty).maxRequests := by
  cases ty <;> decide

/-- The opportunistic sweep only deletes entries: a surviving entry was
already present. -/
theorem cleanupExpiredEntries_sub (now : Nat) (s : RateStore) (k : String)
    (b : Bucket) (h : cleanupExpiredEntries now s k = some b) : s k = some b := by
  unfold cleanupExpiredEntries at h
  cases hs : s k with
  | none => rw [hs] at h; simp at h
  | some b0 =>
      rw [hs] at h
      by_cases hgt : now > b0.resetTime
      · simp [hgt] at h
      · simp [hgt] at h
        rw [h]

/-- A cleaning `checkRateLimit` call is the non-cleaning call on the
swept store. -/
theorem checkRateLimit_clean_eq (ty : RateLimitType) (cid : String)
    (now : Nat) (s : RateStore) :
    checkRateLimit ty cid true now s =
      checkRateLimit ty cid false now (cleanupExpiredEntries now s) := rfl

/-- Pointwise characterisation of the store a non-cleaning
`checkRateLimit` call returns. -/
theorem checkRateLimit_store_char (ty : RateLimitType) (cid : String)
    (now : Nat) (s : RateStore) (k : String) :
    (checkRateLimit ty cid false now s).2 k =
      match s (rateKey ty cid) with
      | none =>
          if k = rateKey ty cid then
            some ⟨1, now + (RATE_LIMITS ty).windowMs⟩
          else s k
      | some ex =>
          if now > ex.resetTime then
            (if k = rateKey ty cid then
              some ⟨1, now + (RATE_LIMITS ty).windowMs⟩
            else s k)
          else if ex.count ≥ (RATE_LIMITS ty).maxRequests then s k
          else
            (if k = rateKey ty cid then some ⟨ex.count + 1, ex.resetTime⟩
            else s k) := by
  cases h1 : s (rateKey ty cid) with
  | none => simp [checkRateLimit, h1, rateSet]
  | some ex =>
      by_cases hgt : now > ex.resetTime
      · simp [checkRateLimit, h1, hgt, rateSet]
      · by_cases hmax : (RATE_LIMITS ty).maxRequests ≤ ex.count
        · simp [checkRateLimit, h1, hgt, hmax, rateSet]
        · simp [checkRateLimit, h1, hgt, hmax, rateSet]

/-- One `checkRateLimit` call preserves the per-class count bound. -/
theorem checkRateLimit_preserves_invariant (ty : RateLimitType) (cid : String)
    (clean : Bool) (now : Nat) (s : RateStore) (hInv : RateInvariant s) :
    RateInvariant (checkRateLimit ty cid clean now s).2 := by
  have base : ∀ s1 : RateStore, RateInvariant s1 →
      RateInvariant (checkRateLimit ty cid false now s1).2 := by
    intro s1 hInv1 ty' cid' b hb
    rw [checkRateLimit_store_char] at hb
    split at hb
    · -- no bucket: the fresh bucket has count 1
      by_cases hk : rateKey ty' cid' = rateKey ty cid
      · rw [if_pos hk] at hb
        obtain rfl := Option.some.inj hb
        have hty : ty' = ty := rateKey_ty_inj hk
        subst hty
        exact one_le_maxRequests ty'
      · rw [if_neg hk] at hb
        exact hInv1 ty' cid' b hb
    · rename_i ex h1
      split at hb
      · -- window elapsed: reset to count 1
        by_cases hk : rateKey ty' cid' = rateKey ty cid
        · rw [if_pos hk] at hb
          obtain rfl := Option.some.inj hb
          have hty : ty' = ty := rateKey_ty_inj hk
          subst hty
          exact one_le_maxRequests ty'
        · rw [if_neg hk] at hb
          exact hInv1 ty' cid' b hb
      · split at hb
        · -- rejected: store unchanged
          exact hInv1 ty' cid' b hb
        · -- incremented below the class maximum
          rename_i hlt
          by_cases hk : rateKey ty' cid' = rateKey ty cid
          · rw [if_pos hk] at hb
            obtain rfl := Option.some.inj hb
            have hty : ty' = ty := rateKey_ty_inj hk
            subst hty
            have hex := hInv1 ty' cid ex h1
            simp only [ge_iff_le, not_le] at hlt
            simpa using hlt
          · rw [if_neg hk] at hb
            exact hInv1 ty' cid' b hb
  cases clean with
  | false => exact base s hInv
  | true =>
      rw [checkRateLimit_clean_eq]
      refine base (cleanupExpiredEntries now s) ?_
      intro ty' cid' b hb
      exact hInv ty' cid' b (cleanupExpiredEntries_sub now s _ b hb)

/-- Running any sequence of calls preserves the per-class count bound. -/
theorem runRateCalls_invariant (calls : List RLCall) :
    ∀ s : RateStore, RateInvariant s → RateInvariant (runRateCalls calls s) := by
  induction calls with
  | nil => intro s h; simpa [runRateCalls] using h
  | cons c rest ih =>
      intro s h
      exact ih _ (checkRateLimit_preserves_invariant c.ty c.clientId c.clean c.now s h)

/-- C8: from the empty store, after any sequence of `checkRateLimit`
calls every bucket's count is at most the `maxRequests` of its limit
class; and a call that would push a full bucket past the class maximum is
rejected and does not increment it. -/
theorem checkRateLimit_count_invariant :
    (∀ calls : List RLCall, RateInvariant (runRateCalls calls emptyRateStore)) ∧
    (∀ (ty : RateLimitType) (cid : String) (clean : Bool) (now : Nat)
        (s : RateStore) (b : Bucket),
        s (rateKey ty cid) = some b → now ≤ b.resetTime →
        (RATE_LIMITS ty).maxRequests ≤ b.count →
        (checkRateLimit ty cid clean now s).1.success = false ∧
        (checkRateLimit ty cid clean now s).2 (rateKey ty cid) = some b) := by
  constructor
  · intro calls
    refine runRateCalls_invariant calls emptyRateStore ?_
    intro ty cid b hb
    exact absurd hb (by simp [emptyRateStore])
  · intro ty cid clean now s b hb hle hmax
    have hnotgt : ¬ b.resetTime < now := by omega
    cases clean with
    | false => exact ⟨by simp [checkRateLimit, hb, hnotgt, hmax],
        by simp [checkRateLimit, cleanupExpiredEntries, hb, hnotgt, hmax]⟩
    | true => exact ⟨by simp [checkRateLimit, cleanupExpiredEntries, hb, hnotgt, hmax],
        by simp [checkRateLimit, cleanupExpiredEntries, hb, hnotgt, hmax]⟩

/-- Witness for C8: after two concrete calls the reached bucket obeys its
class bound, and a full concrete bucket is rejected without change. -/
theorem checkRateLimit_count_invariant_witness :
    ((Bucket.mk 2 900005).count ≤ (RATE_LIMITS RateLimitType.vote).maxRequests) ∧
    ((checkRateLimit .vote "a" false 500
        (rateSet emptyRateStore (rateKey .vote "a") ⟨50, 1000⟩)).1.success = false ∧
     (checkRateLimit .vote "a" false 500
        (rateSet emptyRateStore (rateKey .vote "a") ⟨50, 1000⟩)).2
        (rateKey .vote "a") = some ⟨50, 1000⟩) :=
  ⟨checkRateLimit_count_invariant.1
      [⟨.vote, "a", false, 5⟩, ⟨.vote, "a", false, 6⟩] .vote "a" ⟨2, 900005⟩
      (by decide),
   checkRateLimit_count_invariant.2 .vote "a" false 500
      (rateSet emptyRateStore (rateKey .vote "a") ⟨50, 1000⟩) ⟨50, 1000⟩
      (by decide) (by decide) (by decide)⟩

/-- C1: `validateCSRFToken(identity, token)` returns true only when the
store holds a record keyed by `hash token` whose owner equals `identity`
and whose `expiresAt` is not in the past; and a token stored for identity
A never validates when presented with a distinct identity B, at any time. -/
theorem validateCSRFToken_only_owner_before_expiry :
    (∀ (hash : String → String) (uid tok : String) (now : Nat) (s : CsrfStore),
        (validateCSRFToken hash uid tok now s).1 = true →
        ∃ rec, s (hash tok) = some rec ∧ rec.userId = uid ∧ now ≤ rec.expiresAt) ∧
    (∀ (hash : String → String) (a b tok : String) (issueNow valNow : Nat)
        (s : CsrfStore), a ≠ b →
        (validateCSRFToken hash b tok valNow
            (storeCSRFToken hash a tok issueNow s)).1 = false) := by
  constructor
  · intro hash uid tok now s h
    by_cases h0 : tok = "" ∨ uid = ""
    · simp [validateCSRFToken, h0] at h
    · cases hs : s (hash tok) with
      | none => simp [validateCSRFToken, h0, hs] at h
      | some rec =>
          by_cases hu : rec.userId = uid
          · by_cases he : now > rec.expiresAt
            · simp [validateCSRFToken, h0, hs, hu, he] at h
            · exact ⟨rec, rfl, hu, by omega⟩
          · simp [validateCSRFToken, h0, hs, hu] at h
  · intro hash a b tok issueNow valNow s hab
    by_cases h0 : tok = "" ∨ b = ""
    · simp [validateCSRFToken, h0]
    · have hl : (storeCSRFToken hash a tok issueNow s) (hash tok) =
          some ⟨hash tok, a, issueNow, issueNow + TOKEN_EXPIRY⟩ := by
        simp [storeCSRFToken]
      simp [validateCSRFToken, h0, hl, hab]

/-- Witness for C1 at a concrete store: the stored record is owned by
"A" and unexpired at time 5, and presenting the token as "B" fails. -/
theorem validateCSRFToken_only_owner_before_expiry_witness :
    (∃ rec, (storeCSRFToken id "A" "tok" 0 emptyCsrfStore) (id "tok") = some rec ∧
        rec.userId = "A" ∧ 5 ≤ rec.expiresAt) ∧
    (validateCSRFToken id "B" "tok" 5
        (storeCSRFToken id "A" "tok" 0 emptyCsrfStore)).1 = false :=
  ⟨validateCSRFToken_only_owner_before_expiry.1 id "A" "tok" 5
      (storeCSRFToken id "A" "tok" 0 emptyCsrfStore) (by decide),
   validateCSRFToken_only_owner_before_expiry.2 id "A" "B" "tok" 0 5
      emptyCsrfStore (by decide)⟩

/-- C4 counterexample: validation that fails on an identity mismatch
("otherwise invalid at validation time") does NOT delete the presented
token's record — the record stored for "A" survives a failed validation
presented by "B". -/
theorem validateCSRFToken_mismatch_keeps_record_cex :
    (validateCSRFToken id "B" "tok" 5
        (storeCSRFToken id "A" "tok" 0 emptyCsrfStore)).1 = false ∧
    (validateCSRFToken id "B" "tok" 5
        (storeCSRFToken id "A" "tok" 0 emptyCsrfStore)).2 "tok" =
      some ⟨"tok", "A", 0, 86400000⟩ := by
  exact ⟨by decide, by decide⟩

/-- C4 (amended): `validateCSRFToken` deletes the presented token's record
exactly when the record exists, its owner matches the presented identity,
and the token is expired; in every other case — including a lookup miss
and an identity mismatch — the store is unchanged, and in particular a
successful validation mutates nothing, so the same token validates
repeatedly until expiry. -/
theorem validateCSRFToken_frame (hash : String → String) (uid tok : String)
    (now : Nat) (s : CsrfStore) :
    ((validateCSRFToken hash uid tok now s).1 = true →
        (validateCSRFToken hash uid tok now s).2 = s) ∧
    (∀ rec, s (hash tok) = some rec → tok ≠ "" → uid ≠ "" →
        rec.userId = uid → now > rec.expiresAt →
        (validateCSRFToken hash uid tok now s).2 =
          fun k => if k = hash tok then none else s k) ∧
    ((tok = "" ∨ uid = "" ∨ s (hash tok) = none ∨
        (∃ rec, s (hash tok) = some rec ∧ (rec.userId ≠ uid ∨ now ≤ rec.expiresAt))) →
        (validateCSRFToken hash uid tok now s).2 = s) ∧
    ((validateCSRFToken hash uid tok now s).1 = true →
        (validateCSRFToken hash uid tok now
            ((validateCSRFToken hash uid tok now s).2)).1 = true) := by
  refine ⟨?_, ?_, ?_, ?_⟩
  · intro h
    by_cases h0 : tok = "" ∨ uid = ""
    · simp [validateCSRFToken, h0]
    · cases hs : s (hash tok) with
      | none => simp [validateCSRFToken, h0, hs]
      | some rec =>
          by_cases hu : rec.userId = uid
          · by_cases he : now > rec.expiresAt
            · simp [validateCSRFToken, h0, hs, hu, he] at h
            · simp [validateCSRFToken, h0, hs, hu, he]
          · simp [validateCSRFToken, h0, hs, hu] at h
  · intro rec hs ht hu hmatch he
    have h0 : ¬ (tok = "" ∨ uid = "") := by
      intro hc; cases hc with
      | inl hc => exact ht hc
      | inr hc => exact hu hc
    simp [validateCSRFToken, h0, hs, hmatch, he]
  · intro hcase
    rcases hcase with h0 | h0 | hnone | ⟨rec, hs, hrec⟩
    · simp [validateCSRFToken, h0]
    · simp [validateCSRFToken, h0]
    · by_cases h0 : tok = "" ∨ uid = ""
      · simp [validateCSRFToken, h0]
      · simp [validateCSRFToken, h0, hnone]
    · by_cases h0 : tok = "" ∨ uid = ""
      · simp [validateCSRFToken, h0]
      · cases hrec with
        | inl hne => simp [validateCSRFToken, h0, hs, hne]
        | inr hle =>
            by_cases hu : rec.userId = uid
            · simp [validateCSRFToken, h0, hs, hu,
                show ¬ rec.expiresAt < now from by omega]
            · simp [validateCSRFToken, h0, hs, hu]
  · intro h
    by_cases h0 : tok = "" ∨ uid = ""
    · simp [validateCSRFToken, h0] at h
    · cases hs : s (hash tok) with
      | none => simp [validateCSRFToken, h0, hs] at h
      | some rec =>
          by_cases hu : rec.userId = uid
          · by_cases he : now > rec.expiresAt
            · simp [validateCSRFToken, h0, hs, hu, he] at h
            · simp [validateCSRFToken, h0, hs, hu, he]
          · simp [validateCSRFToken, h0, hs, hu] at h

/-- Witness for C4 (amended) at concrete stores: an expired matching token
is deleted; an identity-mismatch failure leaves the store unchanged; a
successful validation validates again on the resulting store. -/
theorem validateCSRFToken_frame_witness :
    ((validateCSRFToken id "A" "tok" 90000000
        (storeCSRFToken id "A" "tok" 0 emptyCsrfStore)).2 =
      fun k => if k = id "tok" then none
        else (storeCSRFToken id "A" "tok" 0 emptyCsrfStore) k) ∧
    ((validateCSRFToken id "B" "tok" 5
        (storeCSRFToken id "A" "tok" 0 emptyCsrfStore)).2 =
      storeCSRFToken id "A" "tok" 0 emptyCsrfStore) ∧
    (validateCSRFToken id "A" "tok" 5
        (validateCSRFToken id "A" "tok" 5
          (storeCSRFToken id "A" "tok" 0 emptyCsrfStore)).2).1 = true :=
  ⟨(validateCSRFToken_frame id "A" "tok" 90000000
        (storeCSRFToken id "A" "tok" 0 emptyCsrfStore)).2.1
      ⟨"tok", "A", 0, 86400000⟩ (by decide) (by decide) (by decide) (by decide)
      (by decide),
   (validateCSRFToken_frame id "B" "tok" 5
        (storeCSRFToken id "A" "tok" 0 emptyCsrfStore)).2.2.1
      (Or.inr (Or.inr (Or.inr ⟨⟨"tok", "A", 0, 86400000⟩, by decide,
        Or.inl (by decide)⟩))),
   (validateCSRFToken_frame id "A" "tok" 5
        (storeCSRFToken id "A" "tok" 0 emptyCsrfStore)).2.2.2 (by decide)⟩

/-- C2: `checkRateLimit` is a fixed-window counter. If no bucket exists
for the key, or `now` is strictly past its `resetTime`, the bucket is set
to count 1 with reset time `now + windowMs` and the call is allowed;
otherwise, if the count has reached `maxRequests` the call is rejected
with `retryAfter = ceil((resetTime - now) / 1000)`; otherwise the count
is incremented and the call is allowed with
`remaining = maxRequests - count` (post-increment). The opportunistic
cleanup flag does not change which branch is taken. -/
theorem checkRateLimit_fixed_window (ty : RateLimitType) (cid : String)
    (clean : Bool) (now : Nat) (s : RateStore) :
    ((s (rateKey ty cid) = none ∨
        (∃ b, s (rateKey ty cid) = some b ∧ now > b.resetTime)) →
      (checkRateLimit ty cid clean now s).1.success = true ∧
      (checkRateLimit ty cid clean now s).1.resetTime =
        now + (RATE_LIMITS ty).windowMs ∧
      (checkRateLimit ty cid clean now s).2 (rateKey ty cid) =
        some ⟨1, now + (RATE_LIMITS ty).windowMs⟩) ∧
    (∀ b, s (rateKey ty cid) = some b → now ≤ b.resetTime →
        (RATE_LIMITS ty).maxRequests ≤ b.count →
      (checkRateLimit ty cid clean now s).1.success = false ∧
      (checkRateLimit ty cid clean now s).1.retryAfter =
        some ((b.resetTime - now + 999) / 1000)) ∧
    (∀ b, s (rateKey ty cid) = some b → now ≤ b.resetTime →
        b.count < (RATE_LIMITS ty).maxRequests →
      (checkRateLimit ty cid clean now s).1.success = true ∧
      (checkRateLimit ty cid clean now s).1.remaining =
        (RATE_LIMITS ty).maxRequests - (b.count + 1) ∧
      (checkRateLimit ty cid clean now s).2 (rateKey ty cid) =
        some ⟨b.count + 1, b.resetTime⟩) := by
  refine ⟨?_, ?_, ?_⟩
  · rintro (hnone | ⟨b, hb, hgt⟩)
    · cases clean with
      | false => simp [checkRateLimit, hnone, rateSet]
      | true => simp [checkRateLimit, cleanupExpiredEntries, hnone, rateSet]
    · cases clean with
      | false => simp [checkRateLimit, hb, hgt, rateSet]
      | true => simp [checkRateLimit, cleanupExpiredEntries, hb, hgt, rateSet]
  · intro b hb hle hmax
    have hnotgt : ¬ b.resetTime < now := by omega
    cases clean with
    | false => simp [checkRateLimit, hb, hnotgt, hmax]
    | true => simp [checkRateLimit, cleanupExpiredEntries, hb, hnotgt, hmax]
  · intro b hb hle hlt
    have hnotgt : ¬ b.resetTime < now := by omega
    have hnotmax : ¬ (RATE_LIMITS ty).maxRequests ≤ b.count := by omega
    cases clean with
    | false => simp [checkRateLimit, hb, hnotgt, hnotmax, rateSet]
    | true => simp [checkRateLimit, cleanupExpiredEntries, hb, hnotgt, hnotmax,
        rateSet]

/-- Witness for C2: the reset, reject and increment branches at concrete
inputs under the `vote` class (max 50, window 900000 ms). -/
theorem checkRateLimit_fixed_window_witness :
    ((checkRateLimit .vote "ip:1" false 100 emptyRateStore).1.success = true ∧
     (checkRateLimit .vote "ip:1" false 100 emptyRateStore).1.resetTime = 900100 ∧
     (checkRateLimit .vote "ip:1" false 100 emptyRateStore).2
        (rateKey .vote "ip:1") = some ⟨1, 900100⟩) ∧
    ((checkRateLimit .vote "ip:1" false 500
        (rateSet emptyRateStore (rateKey .vote "ip:1") ⟨50, 1000⟩)).1.success = false ∧
     (checkRateLimit .vote "ip:1" false 500
        (rateSet emptyRateStore (rateKey .vote "ip:1") ⟨50, 1000⟩)).1.retryAfter =
       some 1) ∧
    ((checkRateLimit .vote "ip:1" false 500
        (rateSet emptyRateStore (rateKey .vote "ip:1") ⟨3, 1000⟩)).1.success = true ∧
     (checkRateLimit .vote "ip:1" false 500
        (rateSet emptyRateStore (rateKey .vote "ip:1") ⟨3, 1000⟩)).1.remaining = 46 ∧
     (checkRateLimit .vote "ip:1" false 500
        (rateSet emptyRateStore (rateKey .vote "ip:1") ⟨3, 1000⟩)).2
        (rateKey .vote "ip:1") = some ⟨4, 1000⟩) :=
  ⟨(checkRateLimit_fixed_window .vote "ip:1" false 100 emptyRateStore).1
      (Or.inl rfl),
   (checkRateLimit_fixed_window .vote "ip:1" false 500
      (rateSet emptyRateStore (rateKey .vote "ip:1") ⟨50, 1000⟩)).2.1
      ⟨50, 1000⟩ (by decide) (by decide) (by decide),
   (checkRateLimit_fixed_window .vote "ip:1" false 500
      (rateSet emptyRateStore (rateKey .vote "ip:1") ⟨3, 1000⟩)).2.2
      ⟨3, 1000⟩ (by decide) (by decide) (by decide)⟩

/-- Calls at times within the current window, while the count stays below
the class maximum, are all allowed and accumulate the count one by one. -/
theorem runWindowCalls_fills (ty : RateLimitType) (cid : String) (R : Nat) :
    ∀ (ts : List Nat) (s : RateStore) (c : Nat),
      s (rateKey ty cid) = some ⟨c, R⟩ → (∀ t ∈ ts, t ≤ R) →
      c + ts.length ≤ (RATE_LIMITS ty).maxRequests →
      (runWindowCalls ty cid ts s).2 (rateKey ty cid) =
        some ⟨c + ts.length, R⟩ ∧
      ∀ r ∈ (runWindowCalls ty cid ts s).1, r.success = true := by
  intro ts
  induction ts with
  | nil =>
      intro s c hs _ _
      exact ⟨by simpa [runWindowCalls] using hs, by simp [runWindowCalls]⟩
  | cons t ts ih =>
      intro s c hs hts hle
      have ht : t ≤ R := hts t (by simp)
      have hcount : c < (RATE_LIMITS ty).maxRequests := by
        simp only [List.length_cons] at hle; omega
      have hnotgt : ¬ R < t := by omega
      have hnotmax : ¬ (RATE_LIMITS ty).maxRequests ≤ c := by omega
      have h1 : (checkRateLimit ty cid false t s).1.success = true := by
        simp [checkRateLimit, hs, hnotgt, hnotmax]
      have h2 : (checkRateLimit ty cid false t s).2 (rateKey ty cid) =
          some ⟨c + 1, R⟩ := by
        simp [checkRateLimit, hs, hnotgt, hnotmax, rateSet]
      have hrec := ih (checkRateLimit ty cid false t s).2 (c + 1) h2
        (fun u hu => hts u (by simp [hu]))
        (by simp only [List.length_cons] at hle ⊢; omega)
      refine ⟨?_, ?_⟩
      · have harith : c + 1 + ts.length = c + (t :: ts).length := by
          simp only [List.length_cons]; omega
        rw [show (runWindowCalls ty cid (t :: ts) s).2 =
            (runWindowCalls ty cid ts (checkRateLimit ty cid false t s).2).2
          from rfl, hrec.1, harith]
      · intro r hr
        rw [show (runWindowCalls ty cid (t :: ts) s).1 =
            (checkRateLimit ty cid false t s).1 ::
              (runWindowCalls ty cid ts (checkRateLimit ty cid false t s).2).1
          from rfl] at hr
        rcases List.mem_cons.mp hr with hr | hr
        · rw [hr]; exact h1
        · exact hrec.2 r hr

/-- C7: starting with no bucket for the key, `maxRequests` calls within
one window are all allowed, and a further call at a time strictly before
the window's reset is rejected with `remaining = 0` and a strictly
positive `retryAfter`. -/
theorem checkRateLimit_exhaustion (ty : RateLimitType) (cid : String)
    (t0 : Nat) (ts : List Nat) (s : RateStore) (t : Nat)
    (h0 : s (rateKey ty cid) = none)
    (hts : ∀ u ∈ ts, u ≤ t0 + (RATE_LIMITS ty).windowMs)
    (hlen : 1 + ts.length = (RATE_LIMITS ty).maxRequests)
    (ht : t < t0 + (RATE_LIMITS ty).windowMs) :
    (∀ r ∈ (runWindowCalls ty cid (t0 :: ts) s).1, r.success = true) ∧
    (checkRateLimit ty cid false t
        (runWindowCalls ty cid (t0 :: ts) s).2).1.success = false ∧
    (checkRateLimit ty cid false t
        (runWindowCalls ty cid (t0 :: ts) s).2).1.remaining = 0 ∧
    ∃ k, (checkRateLimit ty cid false t
        (runWindowCalls ty cid (t0 :: ts) s).2).1.retryAfter = some k ∧
      0 < k := by
  have h1 : (checkRateLimit ty cid false t0 s).1.success = true := by
    simp [checkRateLimit, h0]
  have h2 : (checkRateLimit ty cid false t0 s).2 (rateKey ty cid) =
      some ⟨1, t0 + (RATE_LIMITS ty).windowMs⟩ := by
    simp [checkRateLimit, h0, rateSet]
  have hfills := runWindowCalls_fills ty cid (t0 + (RATE_LIMITS ty).windowMs)
    ts (checkRateLimit ty cid false t0 s).2 1 h2 hts (by omega)
  have hfull : (runWindowCalls ty cid (t0 :: ts) s).2 (rateKey ty cid) =
      some ⟨(RATE_LIMITS ty).maxRequests, t0 + (RATE_LIMITS ty).windowMs⟩ := by
    rw [show (runWindowCalls ty cid (t0 :: ts) s).2 =
        (runWindowCalls ty cid ts (checkRateLimit ty cid false t0 s).2).2
      from rfl, hfills.1]
    rw [show 1 + ts.length = (RATE_LIMITS ty).maxRequests from hlen]
  have hnotgt : ¬ t0 + (RATE_LIMITS ty).windowMs < t := by omega
  refine ⟨?_, ?_, ?_, ?_⟩
  · intro r hr
    rw [show (runWindowCalls ty cid (t0 :: ts) s).1 =
        (checkRateLimit ty cid false t0 s).1 ::
          (runWindowCalls ty cid ts (checkRateLimit ty cid false t0 s).2).1
      from rfl] at hr
    rcases List.mem_cons.mp hr with hr | hr
    · rw [hr]; exact h1
    · exact hfills.2 r hr
  · simp [checkRateLimit, hfull, hnotgt]
  · simp [checkRateLimit, hfull, hnotgt]
  · refine ⟨(t0 + (RATE_LIMITS ty).windowMs - t + 999) / 1000, ?_, ?_⟩
    · simp [checkRateLimit, hfull, hnotgt]
    · omega

/-- Witness for C7: ten `createPoll` calls from the empty store are all
allowed and the eleventh within the hour is rejected with a positive
retry delay. -/
theorem checkRateLimit_exhaustion_witness :
    (∀ r ∈ (runWindowCalls .createPoll "u"
        (0 :: List.replicate 9 0) emptyRateStore).1, r.success = true) ∧
    (checkRateLimit .createPoll "u" false 5
        (runWindowCalls .createPoll "u"
          (0 :: List.replicate 9 0) emptyRateStore).2).1.success = false ∧
    (checkRateLimit .createPoll "u" false 5
        (runWindowCalls .createPoll "u"
          (0 :: List.replicate 9 0) emptyRateStore).2).1.remaining = 0 ∧
    ∃ k, (checkRateLimit .createPoll "u" false 5
        (runWindowCalls .createPoll "u"
          (0 :: List.replicate 9 0) emptyRateStore).2).1.retryAfter = some k ∧
      0 < k :=
  checkRateLimit_exhaustion .createPoll "u" 0 (List.replicate 9 0)
    emptyRateStore 5 rfl (by decide) (by decide) (by decide)

/-- C10: when `checkRateLimit` rejects a call, the store is exactly the
store the call started from (modulo the independent opportunistic sweep
when the 1%-cleanup fires), and in particular the rejected bucket's count
and reset time are unchanged. -/
theorem checkRateLimit_reject_frame (ty : RateLimitType) (cid : String)
    (clean : Bool) (now : Nat) (s : RateStore) (b : Bucket)
    (hb : s (rateKey ty cid) = some b) (hle : now ≤ b.resetTime)
    (hmax : (RATE_LIMITS ty).maxRequests ≤ b.count) :
    (checkRateLimit ty cid clean now s).2 =
      (if clean then cleanupExpiredEntries now s else s) ∧
    (checkRateLimit ty cid clean now s).2 (rateKey ty cid) = some b := by
  have hnotgt : ¬ b.resetTime < now := by omega
  cases clean with
  | false => exact ⟨by simp [checkRateLimit, hb, hnotgt, hmax],
      by simp [checkRateLimit, hb, hnotgt, hmax]⟩
  | true => exact ⟨by simp [checkRateLimit, cleanupExpiredEntries, hb, hnotgt, hmax],
      by simp [checkRateLimit, cleanupExpiredEntries, hb, hnotgt, hmax]⟩

/-- Witness for C10: a rejected call with the cleanup firing leaves the
store equal to the swept store and the rejected bucket intact. -/
theorem checkRateLimit_reject_frame_witness :
    (checkRateLimit .auth "u" true 500
        (rateSet emptyRateStore (rateKey .auth "u") ⟨20, 1000⟩)).2 =
      (if true then cleanupExpiredEntries 500
        (rateSet emptyRateStore (rateKey .auth "u") ⟨20, 1000⟩)
       else rateSet emptyRateStore (rateKey .auth "u") ⟨20, 1000⟩) ∧
    (checkRateLimit .auth "u" true 500
        (rateSet emptyRateStore (rateKey .auth "u") ⟨20, 1000⟩)).2
      (rateKey .auth "u") = some ⟨20, 1000⟩ :=
  checkRateLimit_reject_frame .auth "u" true 500
    (rateSet emptyRateStore (rateKey .auth "u") ⟨20, 1000⟩) ⟨20, 1000⟩
    (by decide) (by decide) (by decide)

/-- C9: if the rate-limiting step inside `withRateLimit` throws, the
wrapper fails open: the wrapped handler is invoked with the original
request and its outcome is returned. -/
theorem withRateLimit_fails_open {Req : Type} (e : String)
    (handler : Req → Except String HttpResponse) (request : Req) :
    withRateLimit (Except.error e) handler request = handler request := by
  rfl

/-- C3 counterexample: after `shouldShowSessionWarning` has returned true
(flag set, record present), an activity refresh of that existing session —
`trackUserActivity` on the same user — rewrites the record with
`warningShown = false` while keeping the record (same `sessionStart`), so
the flag does NOT remain true under an activity refresh. -/
theorem warningShown_cleared_by_refresh_cex :
    (shouldShowSessionWarning "A" 6901000
        (trackUserActivity "A" 1000 emptySessionStore)).1 = true ∧
    (shouldShowSessionWarning "A" 6901000
        (trackUserActivity "A" 1000 emptySessionStore)).2 "A" =
      some ⟨"A", 1000, 1000, true⟩ ∧
    trackUserActivity "A" 6901000
        ((shouldShowSessionWarning "A" 6901000
          (trackUserActivity "A" 1000 emptySessionStore)).2) "A" =
      some ⟨"A", 6901000, 1000, false⟩ := by
  refine ⟨by decide, by decide, by decide⟩

/-- C3 (amended): once `shouldShowSessionWarning` has returned true, the
`warningShown` flag stays true — and further warnings return false with
the store untouched — under subsequent warning checks, warning checks or
activity refreshes for other users, and the cleanup sweep (which keeps
the record intact or deletes it whole), until the record is deleted or
until `trackUserActivity` runs for that same user, which rewrites the
record with `warningShown = false` (preserving a nonzero
`sessionStart`). -/
theorem warningShown_persistence (uid : String) (s : SessionStore)
    (a : SessionActivity) (h : s uid = some a) (hw : a.warningShown = true) :
    (∀ now, (shouldShowSessionWarning uid now s).1 = false ∧
        (shouldShowSessionWarning uid now s).2 = s) ∧
    (∀ other now, other ≠ uid →
        (shouldShowSessionWarning other now s).2 uid = some a) ∧
    (∀ other now, other ≠ uid →
        trackUserActivity other now s uid = some a) ∧
    (∀ now, cleanupExpiredSessions now s uid = some a ∨
        cleanupExpiredSessions now s uid = none) ∧
    (∀ now, ∃ a', trackUserActivity uid now s uid = some a' ∧
        a'.warningShown = false ∧
        (a.sessionStart ≠ 0 → a'.sessionStart = a.sessionStart)) := by
  refine ⟨?_, ?_, ?_, ?_, ?_⟩
  · intro now
    constructor
    · simp [shouldShowSessionWarning, h, hw]
    · simp [shouldShowSessionWarning, h, hw]
  · intro other now hne
    cases hb : s other with
    | none => simp [shouldShowSessionWarning, hb, h]
    | some b =>
        by_cases hbw : b.warningShown
        · simp [shouldShowSessionWarning, hb, hbw, h]
        · by_cases hcond :
              INACTIVITY_TIMEOUT - (now - b.lastActivity) ≤ WARNING_DURATION
          · simp [shouldShowSessionWarning, hb, hbw, hcond, h, Ne.symm hne]
          · simp [shouldShowSessionWarning, hb, hbw, hcond, h]
  · intro other now hne
    simp [trackUserActivity, Ne.symm hne, h]
  · intro now
    by_cases hexp : now - a.lastActivity > INACTIVITY_TIMEOUT
    · right; simp [cleanupExpiredSessions, h, hexp]
    · left; simp [cleanupExpiredSessions, h, hexp]
  · intro now
    refine ⟨⟨uid, now, if a.sessionStart = 0 then now else a.sessionStart,
        false⟩, ?_, rfl, ?_⟩
    · simp [trackUserActivity, h]
    · intro hne0
      simp [hne0]

/-- Witness for C3 (amended) on the concrete store reached in the
counterexample scenario (flag set for "A" at time 1000). -/
theorem warningShown_persistence_witness :
    ((shouldShowSessionWarning "A" 99
        ((shouldShowSessionWarning "A" 6901000
          (trackUserActivity "A" 1000 emptySessionStore)).2)).1 = false ∧
     (shouldShowSessionWarning "A" 99
        ((shouldShowSessionWarning "A" 6901000
          (trackUserActivity "A" 1000 emptySessionStore)).2)).2 =
       (shouldShowSessionWarning "A" 6901000
          (trackUserActivity "A" 1000 emptySessionStore)).2) ∧
    (∃ a', trackUserActivity "A" 7000000
        ((shouldShowSessionWarning "A" 6901000
          (trackUserActivity "A" 1000 emptySessionStore)).2) "A" = some a' ∧
      a'.warningShown = false ∧
      ((SessionActivity.mk "A" 1000 1000 true).sessionStart ≠ 0 →
        a'.sessionStart = (SessionActivity.mk "A" 1000 1000 true).sessionStart)) :=
  ⟨(warningShown_persistence "A"
      ((shouldShowSessionWarning "A" 6901000
        (trackUserActivity "A" 1000 emptySessionStore)).2)
      ⟨"A", 1000, 1000, true⟩ (by decide) rfl).1 99,
   (warningShown_persistence "A"
      ((shouldShowSessionWarning "A" 6901000
        (trackUserActivity "A" 1000 emptySessionStore)).2)
      ⟨"A", 1000, 1000, true⟩ (by decide) rfl).2.2.2.2 7000000⟩

/-- C6 counterexample: with activity recorded at t0 = 0 and the warning
issued at t0 + 115 minutes, `shouldTerminateSession` at exactly
t0 + 120 minutes returns `{shouldTerminate := false}` — the inactivity
comparison is strict — contradicting the claimed
`{shouldTerminate := true, reason := inactivity}` at that instant. -/
theorem terminate_at_exact_boundary_cex :
    (shouldShowSessionWarning "A" 6900000
        (trackUserActivity "A" 0 emptySessionStore)).1 = true ∧
    shouldTerminateSession "A" 7200000
        ((shouldShowSessionWarning "A" 6900000
          (trackUserActivity "A" 0 emptySessionStore)).2) =
      ⟨false, none⟩ := by
  refine ⟨by decide, by decide⟩

/-- C6 (amended): for a fresh session with activity recorded at `t0` and
none afterwards, `shouldShowSessionWarning` returns true at
t0 + 115 min (6900000 ms) and false on a repeated call; at exactly
t0 + 120 min (7200000 ms) `shouldTerminateSession` still returns false,
and at every time strictly after t0 + 120 min it returns
`{shouldTerminate := true, reason := inactivity}`. -/
theorem session_warning_then_termination (uid : String) (t0 : Nat)
    (s : SessionStore) (hfresh : s uid = none) :
    (shouldShowSessionWarning uid (t0 + 6900000)
        (trackUserActivity uid t0 s)).1 = true ∧
    (shouldShowSessionWarning uid (t0 + 6900000)
        ((shouldShowSessionWarning uid (t0 + 6900000)
          (trackUserActivity uid t0 s)).2)).1 = false ∧
    shouldTerminateSession uid (t0 + 7200000)
        ((shouldShowSessionWarning uid (t0 + 6900000)
          (trackUserActivity uid t0 s)).2) = ⟨false, none⟩ ∧
    (∀ t, t0 + 7200000 < t →
        shouldTerminateSession uid t
          ((shouldShowSessionWarning uid (t0 + 6900000)
            (trackUserActivity uid t0 s)).2) = ⟨true, some .inactivity⟩) := by
  have hs1 : (trackUserActivity uid t0 s) uid = some ⟨uid, t0, t0, false⟩ := by
    simp [trackUserActivity, hfresh]
  have hwarn1 : (shouldShowSessionWarning uid (t0 + 6900000)
      (trackUserActivity uid t0 s)).1 = true := by
    simp [shouldShowSessionWarning, hs1, INACTIVITY_TIMEOUT, WARNING_DURATION]
  have hs2 : (shouldShowSessionWarning uid (t0 + 6900000)
      (trackUserActivity uid t0 s)).2 uid = some ⟨uid, t0, t0, true⟩ := by
    simp [shouldShowSessionWarning, hs1, INACTIVITY_TIMEOUT, WARNING_DURATION]
  refine ⟨hwarn1, ?_, ?_, ?_⟩
  · generalize hgen : (shouldShowSessionWarning uid (t0 + 6900000)
        (trackUserActivity uid t0 s)).2 = s2 at hs2 ⊢
    simp [shouldShowSessionWarning, hs2]
  · simp [shouldTerminateSession, hs2, INACTIVITY_TIMEOUT, MAX_SESSION_DURATION]
  · intro t htlate
    have high : INACTIVITY_TIMEOUT < t - t0 := by
      simp only [INACTIVITY_TIMEOUT]; omega
    simp [shouldTerminateSession, hs2, high]

/-- Witness for C6 (amended): the timeline at t0 = 1000 from the empty
store, with the late check at t0 + 120 min + 1 ms. -/
theorem session_warning_then_termination_witness :
    (shouldShowSessionWarning "A" 6901000
        (trackUserActivity "A" 1000 emptySessionStore)).1 = true ∧
    (shouldShowSessionWarning "A" 6901000
        ((shouldShowSessionWarning "A" 6901000
          (trackUserActivity "A" 1000 emptySessionStore)).2)).1 = false ∧
    shouldTerminateSession "A" 7201000
        ((shouldShowSessionWarning "A" 6901000
          (trackUserActivity "A" 1000 emptySessionStore)).2) = ⟨false, none⟩ ∧
    shouldTerminateSession "A" 7201001
        ((shouldShowSessionWarning "A" 6901000
          (trackUserActivity "A" 1000 emptySessionStore)).2) =
      ⟨true, some .inactivity⟩ :=
  ⟨(session_warning_then_termination "A" 1000 emptySessionStore rfl).1,
   (session_warning_then_termination "A" 1000 emptySessionStore rfl).2.1,
   (session_warning_then_termination "A" 1000 emptySessionStore rfl).2.2.1,
   (session_warning_then_termination "A" 1000 emptySessionStore rfl).2.2.2
     7201001 (by decide)⟩

/-- C5 counterexample: the two CSRF failure cases on a protected POST —
no token at all, and a presented token that fails validation — both get
HTTP 403, but the machine-readable `code` field is the identical
`"CSRF_INVALID"` in both; only the human-readable `message` differs, so
no error CODE distinguishes the cases. -/
theorem csrf_failure_same_code_cex :
    (withCSRFProtection id (fun _ => ⟨200, none, none, none, false⟩)
        defaultMethods true (some "A") ⟨"POST", none, none, false⟩ 0
        emptyCsrfStore).1.status = 403 ∧
    (withCSRFProtection id (fun _ => ⟨200, none, none, none, false⟩)
        defaultMethods true (some "A") ⟨"POST", some "tok", none, false⟩ 0
        emptyCsrfStore).1.status = 403 ∧
    (withCSRFProtection id (fun _ => ⟨200, none, none, none, false⟩)
        defaultMethods true (some "A") ⟨"POST", none, none, false⟩ 0
        emptyCsrfStore).1.message = some "CSRF token not provided" ∧
    (withCSRFProtection id (fun _ => ⟨200, none, none, none, false⟩)
        defaultMethods true (some "A") ⟨"POST", some "tok", none, false⟩ 0
        emptyCsrfStore).1.message = some "Invalid or expired CSRF token" ∧
    (withCSRFProtection id (fun _ => ⟨200, none, none, none, false⟩)
        defaultMethods true (some "A") ⟨"POST", none, none, false⟩ 0
        emptyCsrfStore).1.code =
      (withCSRFProtection id (fun _ => ⟨200, none, none, none, false⟩)
        defaultMethods true (some "A") ⟨"POST", some "tok", none, false⟩ 0
        emptyCsrfStore).1.code := by
  refine ⟨by decide, by decide, by decide, by decide, by decide⟩

/-- C5 (amended): when CSRF validation fails on a protected
state-changing request, the middleware returns HTTP 403 whose body
carries the fixed machine-readable code "CSRF_INVALID" in both failure
cases; the cases are distinguished only by the human-readable `message`
field — "CSRF token not provided" when neither a truthy header nor
cookie token is present, "Invalid or expired CSRF token" when a token is
presented but fails lookup, identity match, or expiry. -/
theorem withCSRFProtection_failure_responses (hash : String → String)
    (handler : CsrfRequest → JsonResponse) (uid : String)
    (request : CsrfRequest) (now : Nat) (s : CsrfStore)
    (hm : request.method ∈ defaultMethods) :
    (jsTruthy (if jsTruthy request.headerToken then request.headerToken
        else request.cookieToken) = false →
      (withCSRFProtection hash handler defaultMethods true (some uid)
          request now s).1 =
        ⟨403, some "CSRF validation failed", some "CSRF token not provided",
          some "CSRF_INVALID", false⟩) ∧
    (∀ tok, (if jsTruthy request.headerToken then request.headerToken
        else request.cookieToken) = some tok →
      jsTruthy (some tok) = true →
      (validateCSRFToken hash uid tok now s).1 = false →
      (withCSRFProtection hash handler defaultMethods true (some uid)
          request now s).1 =
        ⟨403, some "CSRF validation failed",
          some "Invalid or expired CSRF token", some "CSRF_INVALID",
          false⟩) := by
  have hng : ¬ request.method = "GET" := by
    intro hg
    rw [hg] at hm
    simp [defaultMethods] at hm
  constructor
  · intro hfalsy
    simp [withCSRFProtection, validateCSRFTokenFromRequest, hng, hm, hfalsy]
  · intro tok htok htruthy hfail
    simp [withCSRFProtection, validateCSRFTokenFromRequest, hng, hm, htok,
      htruthy, hfail]

/-- Witness for C5 (amended): the no-token and bad-token POSTs at a
concrete store both yield the fixed 403 bodies. -/
theorem withCSRFProtection_failure_responses_witness :
    ((withCSRFProtection id (fun _ => ⟨200, none, none, none, false⟩)
        defaultMethods true (some "B") ⟨"POST", none, none, false⟩ 0
        emptyCsrfStore).1 =
      ⟨403, some "CSRF validation failed", some "CSRF token not provided",
        some "CSRF_INVALID", false⟩) ∧
    ((withCSRFProtection id (fun _ => ⟨200, none, none, none, false⟩)
        defaultMethods true (some "B") ⟨"POST", some "tok", none, false⟩ 0
        emptyCsrfStore).1 =
      ⟨403, some "CSRF validation failed",
        some "Invalid or expired CSRF token", some "CSRF_INVALID", false⟩) :=
  ⟨(withCSRFProtection_failure_responses id
      (fun _ => ⟨200, none, none, none, false⟩) "B"
      ⟨"POST", none, none, false⟩ 0 emptyCsrfStore (by decide)).1 (by decide),
   (withCSRFProtection_failure_responses id
      (fun _ => ⟨200, none, none, none, false⟩) "B"
      ⟨"POST", some "tok", none, false⟩ 0 emptyCsrfStore (by decide)).2
      "tok" (by decide) (by decide) (by decide)⟩

end XPoll

